import Mathlib

/-!
Verification of the `cruzviz/calendar` drawing core (`cal_draw.py`).

The embedding models the Gregorian calendar arithmetic used through
`calendar.monthrange` / `pandas` timestamps, the two generator functions
`days_in_month` and `months_in_year`, and the page composer `month_page`
with its inner day-cell renderer `_plot_a_date`.  Drawing calls are
recorded symbolically: each day cell records the grid indices, axis
limits, the day-number annotation and the moon-phase glyph that the code
passes to matplotlib.  Python exceptions (`KeyError`, `IndexError`,
`TypeError`) are modelled with `Except`.
-/

namespace Cal

/-- Gregorian leap-year test (the rule behind Python `calendar.monthrange`). -/
def leapYear (y : Nat) : Bool :=
  (y % 4 == 0 && y % 100 != 0) || y % 400 == 0

/-- Number of days in month `m` of year `y`: the second component of
`calendar.monthrange(y, m)` in `days_in_month` (cal_draw.py line 27). -/
def monthrange (y m : Nat) : Nat :=
  if m = 2 then (if leapYear y then 29 else 28)
  else if m = 4 ∨ m = 6 ∨ m = 9 ∨ m = 11 then 30
  else 31

/-- A calendar date, the datum carried by a day-resolution pandas
timestamp such as `pd.to_datetime('2015-07-18')`. -/
structure Date where
  year : Nat
  month : Nat
  day : Nat
deriving DecidableEq, Repr

/-- Days in all years before year `y`, proleptic Gregorian. -/
def daysBeforeYear (y : Nat) : Nat :=
  365 * (y - 1) + (y - 1) / 4 - (y - 1) / 100 + (y - 1) / 400

/-- Days in all months of year `y` before month `m`. -/
def daysBeforeMonth (y m : Nat) : Nat :=
  (List.range (m - 1)).foldl (fun acc i => acc + monthrange y (i + 1)) 0

/-- Proleptic-Gregorian ordinal with 0001-01-01 ↦ 1, as in Python
`datetime.date.toordinal`. -/
def ordinal (d : Date) : Nat :=
  daysBeforeYear d.year + daysBeforeMonth d.year d.month + d.day

/-- `pandas.Timestamp.dayofweek`: Monday = 0, …, Sunday = 6
(0001-01-01 was a Monday). -/
def dayofweek (d : Date) : Nat := (ordinal d - 1) % 7

/-- Decimal digit characters (used to model `strftime` zero padding). -/
def digitChar (n : Nat) : Char :=
  match n with
  | 0 => '0' | 1 => '1' | 2 => '2' | 3 => '3' | 4 => '4'
  | 5 => '5' | 6 => '6' | 7 => '7' | 8 => '8' | _ => '9'

/-- Two-digit zero-padded decimal (`%m`, `%d`). -/
def pad2 (n : Nat) : String := ⟨[digitChar (n / 10), digitChar (n % 10)]⟩

/-- Four-digit zero-padded decimal (`%Y` for four-digit years). -/
def pad4 (n : Nat) : String :=
  ⟨[digitChar (n / 1000), digitChar (n / 100 % 10),
    digitChar (n / 10 % 10), digitChar (n % 10)]⟩

/-- `strftime('%Y-%m-%d')` of a date. -/
def dateStr (y m d : Nat) : String := pad4 y ++ "-" ++ pad2 m ++ "-" ++ pad2 d

/-- `strftime('%Y-%m')` of a month. -/
def monthStr (y m : Nat) : String := pad4 y ++ "-" ++ pad2 m

/-- Adding `pd.DateOffset()` — one day — to a date (cal_draw.py line 32). -/
def nextDate : Date → Date
  | ⟨y, m, d⟩ =>
    if d < monthrange y m then ⟨y, m, d + 1⟩
    else if m < 12 then ⟨y, m + 1, 1⟩
    else ⟨y + 1, 1, 1⟩

/-- `start_date + pd.DateOffset(n)`: add `n` days. -/
def addDays (d : Date) : Nat → Date
  | 0 => d
  | n + 1 => nextDate (addDays d n)

/-- Chronological `<` on dates (pandas timestamp comparison). -/
def dateLtb (a b : Date) : Bool :=
  a.year < b.year ||
    (a.year == b.year &&
      (a.month < b.month || (a.month == b.month && a.day < b.day)))

/-- The `while current_date < end_date` loop of `days_in_month`
(cal_draw.py lines 29-32).  The fuel argument only bounds the iteration
count; 40 exceeds the at most 31 iterations any month needs. -/
def daysLoop (fuel : Nat) (current stop : Date) : List String :=
  match fuel with
  | 0 => []
  | fuel + 1 =>
    if dateLtb current stop then
      dateStr current.year current.month current.day ::
        daysLoop fuel (nextDate current) stop
    else []

/-- `days_in_month` (cal_draw.py lines 22-32): all days of month
`y`-`m` in order, as `%Y-%m-%d` strings.  The generator is reified as
the list of its yields. -/
def days_in_month (y m : Nat) : List String :=
  daysLoop 40 ⟨y, m, 1⟩ (addDays ⟨y, m, 1⟩ (monthrange y m))

/-- A year-month pair, the datum of a month-resolution timestamp. -/
structure YearMonth where
  year : Nat
  month : Nat
deriving DecidableEq, Repr

/-- Adding `pd.DateOffset(months=1)` to a month (cal_draw.py line 44). -/
def nextMonth : YearMonth → YearMonth
  | ⟨y, m⟩ => if m < 12 then ⟨y, m + 1⟩ else ⟨y + 1, 1⟩

/-- `start_date + pd.DateOffset(months=n)`: add `n` months. -/
def addMonths (ym : YearMonth) : Nat → YearMonth
  | 0 => ym
  | n + 1 => nextMonth (addMonths ym n)

/-- Chronological `<` on year-months. -/
def ymLtb (a b : YearMonth) : Bool :=
  a.year < b.year || (a.year == b.year && a.month < b.month)

/-- The `while current_date < end_date` loop of `months_in_year`
(cal_draw.py lines 41-44). -/
def monthsLoop (fuel : Nat) (current stop : YearMonth) : List String :=
  match fuel with
  | 0 => []
  | fuel + 1 =>
    if ymLtb current stop then
      monthStr current.year current.month :: monthsLoop fuel (nextMonth current) stop
    else []

/-- `months_in_year` (cal_draw.py lines 35-44): the 12 months of year
`y` as `%Y-%m` strings; `end_date = start + DateOffset(months=12)`. -/
def months_in_year (y : Nat) : List String :=
  monthsLoop 15 ⟨y, 1⟩ (addMonths ⟨y, 1⟩ 12)

/-- Decimal value of a digit character. -/
def digVal (c : Char) : Nat := c.toNat - 48

/-- Parse of a `%Y-%m-%d` string, as done by `pd.to_datetime(day)` on the
strings produced by `days_in_month` (cal_draw.py line 177).  Only the
fixed 10-character digit layout is modelled; anything else is a parse
failure (`pd.to_datetime` raises). -/
def parseDate (s : String) : Option Date :=
  match s.data with
  | [y1, y2, y3, y4, h1, m1, m2, h2, d1, d2] =>
    if h1 = '-' ∧ h2 = '-' ∧ y1.isDigit ∧ y2.isDigit ∧ y3.isDigit ∧
        y4.isDigit ∧ m1.isDigit ∧ m2.isDigit ∧ d1.isDigit ∧ d2.isDigit then
      some ⟨1000 * digVal y1 + 100 * digVal y2 + 10 * digVal y3 + digVal y4,
            10 * digVal m1 + digVal m2, 10 * digVal d1 + digVal d2⟩
    else none
  | _ => none

/-! ## Model of the drawing layer

`tides.Tides` and `astro.Astro` instances are opaque inputs here (their
modules are external to the drawing core); `cal_draw.py` reads only the
attributes below.  Each matplotlib call of `_plot_a_date` is recorded in
a `DayCell`; Python exceptions travel in `Except PyErr`. -/

/-- Python exceptions raised by the code paths of `cal_draw.py`. -/
inductive PyErr where
  | keyError (key : String)
  | indexError
  | typeError (msg : String)
  | valueError (msg : String)
deriving DecidableEq, Repr

/-- A pandas timestamp as it appears in an input series index: a wall
clock date-time together with the timezone the series is indexed in. -/
structure PyTimestamp where
  year : Nat
  month : Nat
  day : Nat
  minuteOfDay : Nat
  tz : String
deriving DecidableEq, Repr

/-- A time-indexed series of heights (tide heights or illumination). -/
structure Series where
  index : List PyTimestamp
  values : List Int
deriving DecidableEq, Repr

/-- Modelled from the spec: the `tides.Tides` object (its module is not
part of the drawing core).  Attributes are the ones `cal_draw.py` reads:
station identity, timezone, year, annual min/max tide heights, and the
per-day lookup `all_tides[date]`, modelled as a partial map from
`%Y-%m-%d` strings. -/
structure TidesObj where
  station_name : String
  state : String
  timezone : String
  year : String
  annual_min : Int
  annual_max : Int
  all_tides : String → Option Series

/-- Modelled from the spec: an `astro.Astro` object (Sun or Moon): the
per-day illumination lookup `heights[date]` and, for the Moon, the
per-day integer phase lookup `phase_day_num[date]`. -/
structure AstroObj where
  heights : String → Option Series
  phase_day_num : String → Option Nat

/-- Python `obj[key]` on a per-day lookup: `KeyError(key)` when absent. -/
def pyGetItem {α : Type} (f : String → Option α) (key : String) :
    Except PyErr α :=
  match f key with
  | some v => .ok v
  | none => .error (.keyError key)

/-- A wall-clock time attached to an IANA zone: the model of
`pd.to_datetime(text).tz_localize(tz)` (then `matplotlib.dates.date2num`)
used for the x-limits in cal_draw.py lines 128-131. -/
structure LocalizedTime where
  text : String
  tz : String
deriving DecidableEq, Repr

/-- The 28-symbol moon-phase glyph table (cal_draw.py line 149). -/
def moon_icon : String := "0ABCDEFGHIJKLM@NOPQRSTUVWXYZ"

/-- What `_plot_a_date` draws for one date: the two gridspec slots it
occupies, the axis limits it sets, the series it fills, the day-number
annotation and the moon-phase glyph. -/
structure DayCell where
  date : String
  illIndex : Nat
  tideIndex : Nat
  xlimLo : LocalizedTime
  xlimHi : LocalizedTime
  illYlim : Int × Int
  tideYlim : Int × Int
  sunSeries : Series
  moonSeries : Series
  tideSeries : Series
  dayLabel : Nat
  moonGlyph : Char
deriving DecidableEq, Repr

/-- `_plot_a_date` (cal_draw.py lines 102-165).  `tide_min`, `tide_max`
and `time_zone` are the outer-scope captures of lines 96-98, read off
`tide_o` here.  Failures follow the source order: the three per-day
lookups (lines 113-115), then `day_of_sun.index[0]` (line 145), then
`phase_day_num[date]` and the glyph-table indexing (line 150). -/
def plot_a_date (tide_o : TidesObj) (sun_o moon_o : AstroObj)
    (grid_index : Nat) (date : String) : Except PyErr DayCell := do
  let day_of_sun ← pyGetItem sun_o.heights date
  let day_of_moon ← pyGetItem moon_o.heights date
  let day_of_tide ← pyGetItem tide_o.all_tides date
  -- lines 127-131: x-limits from midnight to 11:59pm local time
  let start_time : LocalizedTime := ⟨date ++ " 00:00", tide_o.timezone⟩
  let stop_time : LocalizedTime := ⟨date ++ " 23:59", tide_o.timezone⟩
  -- line 145: `day_of_sun.index[0].day` — IndexError on an empty index
  let first_sun ← (match day_of_sun.index.head? with
    | some ts => Except.ok ts
    | none => Except.error PyErr.indexError)
  -- lines 149-150: `moon_icon[moon_o.phase_day_num[date]]`
  let phase ← pyGetItem moon_o.phase_day_num date
  let glyph ← (match moon_icon.data.get? phase with
    | some c => Except.ok c
    | none => Except.error PyErr.indexError)
  .ok { date := date
        illIndex := grid_index          -- ax1 = plt.subplot(gs[grid_index])
        tideIndex := grid_index + 7     -- ax2 = plt.subplot(gs[grid_index + 7])
        xlimLo := start_time
        xlimHi := stop_time
        illYlim := (0, 1)               -- ax1.set_ylim((0, 1))
        tideYlim := (tide_o.annual_min, tide_o.annual_max)  -- ax2.set_ylim
        sunSeries := day_of_sun
        moonSeries := day_of_moon
        tideSeries := day_of_tide
        dayLabel := first_sun.day
        moonGlyph := glyph }

/-- The day loop of `month_page` (cal_draw.py lines 174-180): plot each
date at the running `gridnum`, then advance by 8 after a Saturday
(`pd.to_datetime(day).dayofweek == 5`), else by 1. -/
def plotDays (tide_o : TidesObj) (sun_o moon_o : AstroObj) :
    List String → Nat → Except PyErr (List DayCell)
  | [], _ => .ok []
  | day :: rest, gridnum => do
    let cell ← plot_a_date tide_o sun_o moon_o gridnum day
    let dt ← (match parseDate day with
      | some d => Except.ok d
      | none => Except.error (PyErr.valueError day))
    let cells ← plotDays tide_o sun_o moon_o rest
      (if dayofweek dt == 5 then gridnum + 8 else gridnum + 1)
    .ok (cell :: cells)

/-- Python values that can meet `+` in the logo handler. -/
inductive PyVal where
  | str (s : String)
  | exc (e : PyErr)
deriving Repr

/-- Python `+`: string concatenation when both operands are strings,
`TypeError` otherwise (CPython semantics). -/
def pyAdd : PyVal → PyVal → Except PyErr PyVal
  | .str a, .str b => .ok (.str (a ++ b))
  | _, _ => .error (.typeError "can only concatenate str to str")

/-- Lines 230-236 of cal_draw.py: `try` to load and draw the logo;
`except Exception as e` then runs
`print('Could not load logo image. Error: ' + e)` where `e` is the
exception object itself.  An exception raised while evaluating the
`print` argument propagates out of the handler. -/
def logoSection (logoLoad : Except PyErr Unit) : Except PyErr Bool :=
  match logoLoad with
  | .ok _ => .ok true
  | .error e =>
    match pyAdd (.str "Could not load logo image. Error: ") (.exc e) with
    | .ok _ => .ok false
    | .error e2 => .error e2

/-- English month names, `strftime('%B')` (cal_draw.py line 99). -/
def monthName (m : Nat) : String :=
  match m with
  | 1 => "January" | 2 => "February" | 3 => "March" | 4 => "April"
  | 5 => "May" | 6 => "June" | 7 => "July" | 8 => "August"
  | 9 => "September" | 10 => "October" | 11 => "November" | _ => "December"

/-- `init_day` (cal_draw.py line 172): Sunday = 0 starting column,
from the Monday = 0 `dayofweek` of the month's first day. -/
def init_day (y m : Nat) : Nat := (dayofweek ⟨y, m, 1⟩ + 1) % 7

/-- The composed month figure: the day cells, the leading blank cell
pairs (`gs[i]`, `gs[i+7]` for `i < init_day`, lines 197-199), the page
annotations, and whether the logo was drawn. -/
structure MonthFig where
  cells : List DayCell
  blankPairs : List (Nat × Nat)
  monthTitle : String
  yearTitle : String
  placeName : String
  logoDrawn : Bool
deriving Repr

/-- `month_page` (cal_draw.py lines 81-238) for the month `y`-`m`
(the source receives it as the string `monthStr y m`).  The day loop
runs first; the logo `try`/`except` runs after all annotations; any
uncaught exception aborts page composition. -/
def month_page (y m : Nat) (tide_o : TidesObj) (sun_o moon_o : AstroObj)
    (logoLoad : Except PyErr Unit) : Except PyErr MonthFig := do
  let cells ← plotDays tide_o sun_o moon_o (days_in_month y m) (init_day y m)
  let logoDrawn ← logoSection logoLoad
  .ok { cells := cells
        blankPairs := (List.range (init_day y m)).map (fun i => (i, i + 7))
        monthTitle := monthName m
        yearTitle := tide_o.year
        placeName := tide_o.station_name ++ ", " ++ tide_o.state
        logoDrawn := logoDrawn }

/-! ## Auxiliary definitions for the verification -/

/-- The first day of the month after `y`-`m`. -/
def firstOfNext (y m : Nat) : Date :=
  if m < 12 then ⟨y, m + 1, 1⟩ else ⟨y + 1, 1, 1⟩

/-- The sequence of `gridnum` cursor values the day loop of `month_page`
uses for a list of day strings, starting from cursor `g`
(cal_draw.py lines 173-180). -/
def gridCursor (g : Nat) : List String → List Nat
  | [] => []
  | day :: rest =>
    g :: gridCursor
      (match parseDate day with
       | some dt => if dayofweek dt == 5 then g + 8 else g + 1
       | none => g)
      rest

/-- Closed form of the cursor for day `k` (0-based) of month `y`-`m`:
column `(init_day + k) % 7` of week row `(init_day + k) / 7`, each row
14 grid slots wide. -/
def gridFor (y m k : Nat) : Nat :=
  14 * ((init_day y m + k) / 7) + (init_day y m + k) % 7

/-- A date string all three per-day lookups can serve, with a nonempty
sun index and an in-range moon phase: the per-date precondition under
which `_plot_a_date` succeeds. -/
def dateOk (t : TidesObj) (s mo : AstroObj) (day : String) : Prop :=
  (∃ ser, s.heights day = some ser ∧ ser.index.head? ≠ none) ∧
  (∃ ser, mo.heights day = some ser) ∧
  (∃ ser, t.all_tides day = some ser) ∧
  (∃ ph, mo.phase_day_num day = some ph ∧ ph < 28)

/-- One of the per-day lookups has no entry for `day`. -/
def lookupMissing (t : TidesObj) (s mo : AstroObj) (day : String) : Prop :=
  s.heights day = none ∨ mo.heights day = none ∨
    t.all_tides day = none ∨ mo.phase_day_num day = none

/-- A fixed timestamp for the sample contexts below. -/
def sampleTs : PyTimestamp := ⟨2015, 7, 1, 0, "UTC"⟩

/-- A one-sample series used by the sample contexts. -/
def sampleSeries : Series := ⟨[sampleTs], [1]⟩

/-- A total sample tide context (every date has a series). -/
def sampleTide : TidesObj :=
  { station_name := "Santa Cruz", state := "CA", timezone := "US/Pacific"
    year := "2015", annual_min := -2, annual_max := 7
    all_tides := fun _ => some sampleSeries }

/-- A sample astro context with constant series and phase 14. -/
def sampleSun : AstroObj :=
  { heights := fun _ => some sampleSeries, phase_day_num := fun _ => some 14 }

/-- A second astro context (the Moon role). -/
def sampleMoon : AstroObj :=
  { heights := fun _ => some sampleSeries, phase_day_num := fun _ => some 3 }

/-- A tide context whose per-day lookup lacks 2015-07-18. -/
def sampleTideMissing : TidesObj :=
  { station_name := "Santa Cruz", state := "CA", timezone := "US/Pacific"
    year := "2015", annual_min := -2, annual_max := 7
    all_tides := fun day =>
      if day = "2015-07-18" then none else some sampleSeries }

/-- Fallback figure used only to totalize `sampleFig`. -/
def emptyFig : MonthFig := ⟨[], [], "", "", "", false⟩

/-- The figure `month_page` composes for July 2015 from the sample
contexts. -/
def sampleFig : MonthFig :=
  match month_page 2015 7 sampleTide sampleSun sampleMoon (.ok ()) with
  | .ok f => f
  | .error _ => emptyFig

/-! ## Lemmas: the day generator -/

theorem monthrange_ge (y m : Nat) : 28 ≤ monthrange y m := by
  unfold monthrange
  split
  · split <;> omega
  · split <;> omega

theorem monthrange_le (y m : Nat) : monthrange y m ≤ 31 := by
  unfold monthrange
  split
  · split <;> omega
  · split <;> omega

theorem nextDate_within (y m d : Nat) (h : d < monthrange y m) :
    nextDate ⟨y, m, d⟩ = ⟨y, m, d + 1⟩ := by
  simp [nextDate, h]

theorem nextDate_last (y m : Nat) :
    nextDate ⟨y, m, monthrange y m⟩ = firstOfNext y m := by
  simp [nextDate, firstOfNext]

theorem addDays_month (y m : Nat) :
    addDays ⟨y, m, 1⟩ (monthrange y m) = firstOfNext y m := by
  have key : ∀ j, j < monthrange y m →
      addDays (⟨y, m, 1⟩ : Date) j = ⟨y, m, 1 + j⟩ := by
    intro j
    induction j with
    | zero => intro _; rfl
    | succ j ih =>
      intro hj
      show nextDate (addDays ⟨y, m, 1⟩ j) = _
      rw [ih (by omega), nextDate_within y m (1 + j) (by omega)]
      simp only [Date.mk.injEq, true_and]
      omega
  have h1 : 1 ≤ monthrange y m := le_trans (by omega) (monthrange_ge y m)
  obtain ⟨n, hn⟩ : ∃ n, monthrange y m = n + 1 := ⟨monthrange y m - 1, by omega⟩
  rw [hn]
  show nextDate (addDays ⟨y, m, 1⟩ n) = _
  rw [key n (by omega)]
  have heq : (⟨y, m, 1 + n⟩ : Date) = ⟨y, m, monthrange y m⟩ := by
    congr 1
    omega
  rw [heq, nextDate_last]

theorem dateLtb_firstOfNext (y m d : Nat) :
    dateLtb ⟨y, m, d⟩ (firstOfNext y m) = true := by
  unfold dateLtb firstOfNext
  split <;> simp

theorem dateLtb_irrefl (d : Date) : dateLtb d d = false := by
  unfold dateLtb
  simp

theorem daysLoop_run (y m : Nat) :
    ∀ j fuel, j + 2 ≤ fuel → ∀ d, 1 ≤ d → d + j = monthrange y m →
      daysLoop fuel ⟨y, m, d⟩ (firstOfNext y m) =
        (List.range (j + 1)).map (fun k => dateStr y m (d + k)) := by
  intro j
  induction j with
  | zero =>
    intro fuel hfuel d _ hd
    obtain ⟨f, rfl⟩ : ∃ f, fuel = f + 2 := ⟨fuel - 2, by omega⟩
    have hd' : d = monthrange y m := by omega
    subst hd'
    simp only [daysLoop, dateLtb_firstOfNext, if_true, nextDate_last,
      dateLtb_irrefl]
    simp [List.range_succ]
  | succ j ih =>
    intro fuel hfuel d h1 hd
    obtain ⟨f, rfl⟩ : ∃ f, fuel = f + 1 := ⟨fuel - 1, by omega⟩
    simp only [daysLoop, dateLtb_firstOfNext, if_true]
    rw [nextDate_within y m d (by omega)]
    rw [ih f (by omega) (d + 1) (by omega) (by omega)]
    rw [List.range_succ_eq_map (j + 1), List.map_cons, List.map_map]
    simp only [List.cons.injEq]
    refine ⟨by rw [Nat.add_zero], ?_⟩
    apply List.map_congr_left
    intro k _
    simp only [Function.comp_apply]
    congr 1
    omega

/-- `days_in_month` in closed form: the `%Y-%m-%d` strings of days
`1 .. monthrange y m`. -/
theorem days_in_month_eq (y m : Nat) :
    days_in_month y m =
      (List.range (monthrange y m)).map (fun k => dateStr y m (k + 1)) := by
  unfold days_in_month
  rw [addDays_month]
  have h28 := monthrange_ge y m
  obtain ⟨j, hj⟩ : ∃ j, monthrange y m = j + 1 := ⟨monthrange y m - 1, by omega⟩
  have h31 := monthrange_le y m
  rw [daysLoop_run y m j 40 (by omega) 1 (by omega) (by omega)]
  rw [hj]
  apply List.map_congr_left
  intro k _
  congr 1
  omega

/-! ## Lemmas: date-string formatting, parsing and order -/

theorem digitChar_digit (n : Nat) (h : n ≤ 9) : (digitChar n).isDigit = true := by
  have key : ∀ x : Fin 10, (digitChar x.val).isDigit = true := by decide
  exact key ⟨n, by omega⟩

theorem digVal_digitChar (n : Nat) (h : n ≤ 9) : digVal (digitChar n) = n := by
  have key : ∀ x : Fin 10, digVal (digitChar x.val) = x.val := by decide
  exact key ⟨n, by omega⟩

theorem digitChar_lt (a b : Nat) (ha : a ≤ 9) (hb : b ≤ 9) (h : a < b) :
    digitChar a < digitChar b := by
  have key : ∀ x y : Fin 10, x.val < y.val → digitChar x.val < digitChar y.val := by
    decide
  exact key ⟨a, by omega⟩ ⟨b, by omega⟩ h

theorem pad2_lex (a b : Nat) (hb : b ≤ 99) (h : a < b) :
    List.Lex (· < ·) (pad2 a).data (pad2 b).data := by
  unfold pad2
  rcases Nat.lt_or_ge (a / 10) (b / 10) with hdiv | hdiv
  · exact List.Lex.rel (digitChar_lt _ _ (by omega) (by omega) hdiv)
  · have hde : a / 10 = b / 10 := by omega
    have hmod : a % 10 < b % 10 := by omega
    rw [hde]
    exact List.Lex.cons (List.Lex.rel (digitChar_lt _ _ (by omega) (by omega) hmod))

theorem lex_append_left (p : List Char) {s t : List Char}
    (h : List.Lex (· < ·) s t) : List.Lex (· < ·) (p ++ s) (p ++ t) := by
  induction p with
  | nil => exact h
  | cons c cs ih => exact List.Lex.cons ih

theorem dateStr_lt (y m d1 d2 : Nat) (hb : d2 ≤ 99) (h : d1 < d2) :
    dateStr y m d1 < dateStr y m d2 := by
  apply String.lt_iff_toList_lt.mpr
  show List.Lex (· < ·) (dateStr y m d1).data (dateStr y m d2).data
  unfold dateStr
  simp only [String.data_append]
  exact lex_append_left _ (pad2_lex d1 d2 hb h)

theorem monthStr_lt (y m1 m2 : Nat) (hb : m2 ≤ 99) (h : m1 < m2) :
    monthStr y m1 < monthStr y m2 := by
  apply String.lt_iff_toList_lt.mpr
  show List.Lex (· < ·) (monthStr y m1).data (monthStr y m2).data
  unfold monthStr
  simp only [String.data_append]
  exact lex_append_left _ (pad2_lex m1 m2 hb h)

theorem dateStr_data (y m d : Nat) :
    (dateStr y m d).data =
      [digitChar (y / 1000), digitChar (y / 100 % 10), digitChar (y / 10 % 10),
       digitChar (y % 10), '-', digitChar (m / 10), digitChar (m % 10), '-',
       digitChar (d / 10), digitChar (d % 10)] := rfl

theorem parseDate_dateStr (y m d : Nat) (hy : y ≤ 9999) (hm : m ≤ 99)
    (hd : d ≤ 99) : parseDate (dateStr y m d) = some ⟨y, m, d⟩ := by
  unfold parseDate
  rw [dateStr_data]
  dsimp only
  rw [if_pos]
  · simp only [Option.some.injEq, Date.mk.injEq]
    rw [digVal_digitChar, digVal_digitChar, digVal_digitChar, digVal_digitChar,
      digVal_digitChar, digVal_digitChar, digVal_digitChar, digVal_digitChar]
    all_goals omega
  · refine ⟨rfl, rfl, ?_, ?_, ?_, ?_, ?_, ?_, ?_, ?_⟩ <;>
      exact digitChar_digit _ (by omega)

/-! ## Lemmas: the month generator -/

theorem ymLtb_next (y k : Nat) : ymLtb ⟨y, k⟩ ⟨y + 1, 1⟩ = true := by
  simp [ymLtb, Nat.lt_succ_self]

theorem ymLtb_irrefl (a : YearMonth) : ymLtb a a = false := by
  simp [ymLtb]

theorem nextMonth_within (y k : Nat) (h : k < 12) :
    nextMonth ⟨y, k⟩ = ⟨y, k + 1⟩ := by
  simp [nextMonth, h]

theorem nextMonth_last (y : Nat) : nextMonth ⟨y, 12⟩ = ⟨y + 1, 1⟩ := by
  simp [nextMonth]

/-- `months_in_year` in closed form: the `%Y-%m` strings of months
`1 .. 12`. -/
theorem months_in_year_eq (y : Nat) :
    months_in_year y = (List.range 12).map (fun k => monthStr y (k + 1)) := by
  unfold months_in_year
  have hstop : addMonths (⟨y, 1⟩ : YearMonth) 12 = ⟨y + 1, 1⟩ := rfl
  rw [hstop]
  simp [monthsLoop, nextMonth, ymLtb_next, ymLtb_irrefl, List.range_succ]

theorem months_in_year_chain (y : Nat) :
    List.Chain' (· < ·) (months_in_year y) := by
  rw [months_in_year_eq, List.chain'_map, List.chain'_range_succ]
  intro k hk
  exact monthStr_lt y (k + 1) (k + 1 + 1) (by omega) (by omega)

theorem days_in_month_chain (y m : Nat) :
    List.Chain' (· < ·) (days_in_month y m) := by
  rw [days_in_month_eq, List.chain'_map]
  have h31 := monthrange_le y m
  have h28 := monthrange_ge y m
  obtain ⟨t, ht⟩ : ∃ t, monthrange y m = t + 1 := ⟨monthrange y m - 1, by omega⟩
  rw [ht, List.chain'_range_succ]
  intro k hk
  exact dateStr_lt y m (k + 1) (k + 1 + 1) (by omega) (by omega)

/-! ## Lemmas: the day-cell renderer -/

theorem exceptBind_ok {α β : Type} (a : α) (f : α → Except PyErr β) :
    (Except.ok a >>= f) = f a := rfl

theorem exceptBind_err {α β : Type} (e : PyErr) (f : α → Except PyErr β) :
    ((Except.error e : Except PyErr α) >>= f) = Except.error e := rfl

theorem plot_a_date_ok {t : TidesObj} {s mo : AstroObj} {g : Nat}
    {date : String} {c : DayCell} (h : plot_a_date t s mo g date = .ok c) :
    c.date = date ∧ c.illIndex = g ∧ c.tideIndex = g + 7 ∧
    c.xlimLo = ⟨date ++ " 00:00", t.timezone⟩ ∧
    c.xlimHi = ⟨date ++ " 23:59", t.timezone⟩ ∧
    c.illYlim = (0, 1) ∧ c.tideYlim = (t.annual_min, t.annual_max) ∧
    s.heights date = some c.sunSeries ∧ mo.heights date = some c.moonSeries ∧
    t.all_tides date = some c.tideSeries ∧
    (∃ ts, c.sunSeries.index.head? = some ts ∧ c.dayLabel = ts.day) ∧
    (∃ ph, mo.phase_day_num date = some ph ∧
      moon_icon.data.get? ph = some c.moonGlyph) := by
  unfold plot_a_date pyGetItem at h
  cases hs : s.heights date <;> rw [hs] at h
  case none => rw [exceptBind_err] at h; exact Except.noConfusion h
  case some sunser =>
  rw [exceptBind_ok] at h
  cases hmo : mo.heights date <;> rw [hmo] at h
  case none => rw [exceptBind_err] at h; exact Except.noConfusion h
  case some moonser =>
  rw [exceptBind_ok] at h
  cases ht : t.all_tides date <;> rw [ht] at h
  case none => rw [exceptBind_err] at h; exact Except.noConfusion h
  case some tideser =>
  rw [exceptBind_ok] at h
  cases hh : sunser.index.head? <;> rw [hh] at h
  case none => rw [exceptBind_err] at h; exact Except.noConfusion h
  case some ts =>
  rw [exceptBind_ok] at h
  cases hph : mo.phase_day_num date <;> rw [hph] at h
  case none => rw [exceptBind_err] at h; exact Except.noConfusion h
  case some ph =>
  rw [exceptBind_ok] at h
  cases hg : moon_icon.data.get? ph <;> rw [hg] at h
  case none => rw [exceptBind_err] at h; exact Except.noConfusion h
  case some glyph =>
  rw [exceptBind_ok] at h
  cases h
  refine ⟨rfl, rfl, rfl, rfl, rfl, rfl, rfl, rfl, rfl, rfl, ⟨ts, hh, rfl⟩,
    ⟨ph, rfl, hg⟩⟩

theorem plot_a_date_some {t : TidesObj} {s mo : AstroObj} {date : String}
    (g : Nat) (h : dateOk t s mo day) (hday : day = date) :
    ∃ c, plot_a_date t s mo g date = .ok c := by
  subst hday
  obtain ⟨⟨sunser, hs, hne⟩, ⟨moonser, hmo⟩, ⟨tideser, ht⟩, ⟨ph, hph, hlt⟩⟩ := h
  obtain ⟨ts, hh⟩ : ∃ ts, sunser.index.head? = some ts := by
    cases hhead : sunser.index.head? with
    | none => exact absurd hhead hne
    | some ts => exact ⟨ts, rfl⟩
  obtain ⟨glyph, hg⟩ : ∃ c, moon_icon.data.get? ph = some c := by
    have hlen : moon_icon.data.length = 28 := by decide
    exact ⟨moon_icon.data.get ⟨ph, by omega⟩, List.get?_eq_get (by omega)⟩
  unfold plot_a_date pyGetItem
  rw [hs, exceptBind_ok, hmo, exceptBind_ok, ht, exceptBind_ok, hh,
    exceptBind_ok, hph, exceptBind_ok, hg, exceptBind_ok]
  exact ⟨_, rfl⟩

theorem plot_a_date_missing {t : TidesObj} {s mo : AstroObj} {date : String}
    (g : Nat)
    (wfS : ∀ ser, s.heights date = some ser → ser.index.head? ≠ none)
    (hmiss : lookupMissing t s mo date) :
    plot_a_date t s mo g date = .error (.keyError date) := by
  unfold plot_a_date pyGetItem
  cases hs : s.heights date with
  | none => rw [exceptBind_err]
  | some sunser =>
  rw [exceptBind_ok]
  cases hmo : mo.heights date with
  | none => rw [exceptBind_err]
  | some moonser =>
  rw [exceptBind_ok]
  cases ht : t.all_tides date with
  | none => rw [exceptBind_err]
  | some tideser =>
  rw [exceptBind_ok]
  cases hh : sunser.index.head? with
  | none => exact absurd hh (wfS sunser hs)
  | some ts =>
  rw [exceptBind_ok]
  cases hph : mo.phase_day_num date with
  | none => rw [exceptBind_err]
  | some ph =>
  rcases hmiss with h | h | h | h <;>
    first
      | exact absurd hs (by rw [h]; exact fun hc => Option.noConfusion hc)
      | exact absurd hmo (by rw [h]; exact fun hc => Option.noConfusion hc)
      | exact absurd ht (by rw [h]; exact fun hc => Option.noConfusion hc)
      | exact absurd hph (by rw [h]; exact fun hc => Option.noConfusion hc)

/-! ## Lemmas: the day loop of `month_page` -/

theorem plotDays_ok {t : TidesObj} {s mo : AstroObj} :
    ∀ (l : List String) (g : Nat) (cells : List DayCell),
      plotDays t s mo l g = .ok cells →
      cells.map (fun c => c.date) = l ∧
      cells.map (fun c => c.illIndex) = gridCursor g l ∧
      (∀ c ∈ cells, c.tideIndex = c.illIndex + 7 ∧
        ∃ g', plot_a_date t s mo g' c.date = .ok c) := by
  intro l
  induction l with
  | nil =>
    intro g cells h
    unfold plotDays at h
    cases h
    exact ⟨rfl, rfl, by intro c hc; cases hc⟩
  | cons day rest ih =>
    intro g cells h
    unfold plotDays at h
    cases hc0 : plot_a_date t s mo g day <;> rw [hc0] at h
    case error => rw [exceptBind_err] at h; exact Except.noConfusion h
    case ok c0 =>
    rw [exceptBind_ok] at h
    cases hp : parseDate day <;> rw [hp] at h
    case none => rw [exceptBind_err] at h; exact Except.noConfusion h
    case some dt =>
    rw [exceptBind_ok] at h
    cases hrest : plotDays t s mo rest
        (if dayofweek dt == 5 then g + 8 else g + 1) <;> rw [hrest] at h
    case error => rw [exceptBind_err] at h; exact Except.noConfusion h
    case ok cs =>
    rw [exceptBind_ok] at h
    cases h
    obtain ⟨hdate, hill, htide, -, -, -, -, -, -, -, -, -⟩ := plot_a_date_ok hc0
    obtain ⟨ihdate, ihill, ihmem⟩ := ih _ cs hrest
    refine ⟨?_, ?_, ?_⟩
    · simp only [List.map_cons, ihdate, hdate]
    · show c0.illIndex :: cs.map (fun c => c.illIndex) =
        gridCursor g (day :: rest)
      unfold gridCursor
      rw [hp, ihill, hill]
    · intro c hc
      rcases List.mem_cons.mp hc with hc | hc
      · subst hc
        exact ⟨by rw [htide, hill], g, by rw [hdate]; exact hc0⟩
      · exact ihmem c hc

theorem plotDays_abort {t : TidesObj} {s mo : AstroObj} :
    ∀ (l : List String) (g : Nat),
      (∀ day ∈ l, ∀ ser, s.heights day = some ser → ser.index.head? ≠ none) →
      (∀ day ∈ l, ∀ ph, mo.phase_day_num day = some ph → ph < 28) →
      (∀ day ∈ l, parseDate day ≠ none) →
      (∃ day ∈ l, lookupMissing t s mo day) →
      ∃ day ∈ l, lookupMissing t s mo day ∧
        plotDays t s mo l g = .error (.keyError day) := by
  intro l
  induction l with
  | nil =>
    intro g _ _ _ hex
    obtain ⟨day, hday, -⟩ := hex
    cases hday
  | cons day rest ih =>
    intro g wfS wfPh wfP hex
    by_cases hm : lookupMissing t s mo day
    · refine ⟨day, List.mem_cons_self day rest, hm, ?_⟩
      unfold plotDays
      rw [plot_a_date_missing g (wfS day (List.mem_cons_self day rest)) hm,
        exceptBind_err]
    · have hok : dateOk t s mo day := by
        unfold lookupMissing at hm
        push_neg at hm
        obtain ⟨h1, h2, h3, h4⟩ := hm
        obtain ⟨sunser, hs⟩ := Option.ne_none_iff_exists'.mp h1
        obtain ⟨moonser, hmo2⟩ := Option.ne_none_iff_exists'.mp h2
        obtain ⟨tideser, ht⟩ := Option.ne_none_iff_exists'.mp h3
        obtain ⟨ph, hph⟩ := Option.ne_none_iff_exists'.mp h4
        exact ⟨⟨sunser, hs, wfS day (List.mem_cons_self day rest) sunser hs⟩,
          ⟨moonser, hmo2⟩, ⟨tideser, ht⟩,
          ⟨ph, hph, wfPh day (List.mem_cons_self day rest) ph hph⟩⟩
      obtain ⟨c0, hc0⟩ := plot_a_date_some g hok rfl
      obtain ⟨dt, hdt⟩ :=
        Option.ne_none_iff_exists'.mp (wfP day (List.mem_cons_self day rest))
      have hex' : ∃ d ∈ rest, lookupMissing t s mo d := by
        obtain ⟨bad, hbad, hbadm⟩ := hex
        rcases List.mem_cons.mp hbad with hbad | hbad
        · exact absurd (hbad ▸ hbadm) hm
        · exact ⟨bad, hbad, hbadm⟩
      obtain ⟨day2, h1, h2, herr⟩ := ih
        (if dayofweek dt == 5 then g + 8 else g + 1)
        (fun d hd => wfS d (List.mem_cons_of_mem day hd))
        (fun d hd => wfPh d (List.mem_cons_of_mem day hd))
        (fun d hd => wfP d (List.mem_cons_of_mem day hd)) hex'
      refine ⟨day2, List.mem_cons_of_mem day h1, h2, ?_⟩
      unfold plotDays
      rw [hc0, exceptBind_ok, hdt, exceptBind_ok, herr, exceptBind_err]

theorem month_page_parts {y m : Nat} {t : TidesObj} {s mo : AstroObj}
    {logo : Except PyErr Unit} {fig : MonthFig}
    (h : month_page y m t s mo logo = .ok fig) :
    plotDays t s mo (days_in_month y m) (init_day y m) = .ok fig.cells ∧
    logoSection logo = .ok fig.logoDrawn ∧
    fig.blankPairs = (List.range (init_day y m)).map (fun i => (i, i + 7)) ∧
    fig.monthTitle = monthName m ∧ fig.yearTitle = t.year ∧
    fig.placeName = t.station_name ++ ", " ++ t.state := by
  unfold month_page at h
  cases hp : plotDays t s mo (days_in_month y m) (init_day y m) <;>
    rw [hp] at h
  case error => rw [exceptBind_err] at h; exact Except.noConfusion h
  case ok cells =>
  rw [exceptBind_ok] at h
  cases hl : logoSection logo <;> rw [hl] at h
  case error => rw [exceptBind_err] at h; exact Except.noConfusion h
  case ok b =>
  rw [exceptBind_ok] at h
  cases h
  exact ⟨rfl, rfl, rfl, rfl, rfl, rfl⟩

theorem month_page_loop_err {y m : Nat} {t : TidesObj} {s mo : AstroObj}
    {e : PyErr}
    (h : plotDays t s mo (days_in_month y m) (init_day y m) = .error e)
    (logo : Except PyErr Unit) : month_page y m t s mo logo = .error e := by
  unfold month_page
  rw [h, exceptBind_err]

/-! ## Lemmas: grid cursor arithmetic -/

theorem dayofweek_from_first (y m k : Nat) :
    dayofweek ⟨y, m, k + 1⟩ = (dayofweek ⟨y, m, 1⟩ + k) % 7 := by
  simp only [dayofweek, ordinal]
  omega

theorem gridFor_step (y m k : Nat) :
    gridFor y m (k + 1) =
      gridFor y m k +
        (if (dayofweek ⟨y, m, 1⟩ + k) % 7 = 5 then 8 else 1) := by
  simp only [gridFor, init_day]
  split <;> omega

theorem gridCursor_month (y m : Nat) (hy : y ≤ 9999) (hm2 : m ≤ 12) :
    ∀ n k, k + n ≤ monthrange y m →
      gridCursor (gridFor y m k)
          ((List.range n).map (fun j => dateStr y m (k + j + 1))) =
        (List.range n).map (fun j => gridFor y m (k + j)) := by
  have h31 := monthrange_le y m
  intro n
  induction n with
  | zero => intro k _; rfl
  | succ n ih =>
    intro k hk
    rw [List.range_succ_eq_map, List.map_cons, List.map_map, List.map_cons,
      List.map_map]
    unfold gridCursor
    rw [parseDate_dateStr y m (k + 0 + 1) hy (by omega) (by omega)]
    dsimp only
    rw [dayofweek_from_first]
    have htail : ∀ (g : Nat),
        gridCursor g
            (List.map ((fun j => dateStr y m (k + j + 1)) ∘ Nat.succ)
              (List.range n)) =
          gridCursor g
            (List.map (fun j => dateStr y m (k + 1 + j + 1))
              (List.range n)) := by
      intro g
      congr 1
      apply List.map_congr_left
      intro j _
      simp only [Function.comp_apply]
      congr 1
      omega
    have hrhs :
        List.map ((fun j => gridFor y m (k + j)) ∘ Nat.succ) (List.range n) =
          List.map (fun j => gridFor y m (k + 1 + j)) (List.range n) := by
      apply List.map_congr_left
      intro j _
      simp only [Function.comp_apply]
      congr 1
      omega
    rw [hrhs]
    by_cases hsat : (dayofweek ⟨y, m, 1⟩ + k) % 7 = 5
    · rw [if_pos (by rw [hsat]; rfl)]
      rw [htail, show gridFor y m k + 8 = gridFor y m (k + 1) by
        rw [gridFor_step, if_pos hsat]]
      rw [ih (k + 1) (by omega)]
      simp only [List.cons.injEq]
      exact ⟨by simp, trivial⟩
    · rw [if_neg (by simp only [beq_iff_eq]; exact hsat)]
      rw [htail, show gridFor y m k + 1 = gridFor y m (k + 1) by
        rw [gridFor_step, if_neg hsat]]
      rw [ih (k + 1) (by omega)]
      simp only [List.cons.injEq]
      exact ⟨by simp, trivial⟩

theorem init_day_lt (y m : Nat) : init_day y m < 7 := by
  simp only [init_day]
  omega

theorem gridFor_zero (y m : Nat) : gridFor y m 0 = init_day y m := by
  have := init_day_lt y m
  simp only [gridFor]
  omega

theorem month_page_grid {y m : Nat} {t : TidesObj} {s mo : AstroObj}
    {logo : Except PyErr Unit} {fig : MonthFig} (hy : y ≤ 9999) (hm2 : m ≤ 12)
    (h : month_page y m t s mo logo = .ok fig) :
    fig.cells.map (fun c => c.illIndex) =
      (List.range (monthrange y m)).map (fun k => gridFor y m k) ∧
    fig.cells.map (fun c => c.tideIndex) =
      (List.range (monthrange y m)).map (fun k => gridFor y m k + 7) := by
  obtain ⟨hp, -, -, -, -, -⟩ := month_page_parts h
  obtain ⟨hdates, hill, hmem⟩ := plotDays_ok _ _ _ hp
  have hdays :
      days_in_month y m =
        (List.range (monthrange y m)).map (fun j => dateStr y m (0 + j + 1)) := by
    rw [days_in_month_eq]
    apply List.map_congr_left
    intro j _
    congr 1
    omega
  have hcursor := gridCursor_month y m hy hm2 (monthrange y m) 0 (by omega)
  have hill2 : fig.cells.map (fun c => c.illIndex) =
      (List.range (monthrange y m)).map (fun k => gridFor y m k) := by
    rw [hill, ← gridFor_zero y m, hdays, hcursor]
    apply List.map_congr_left
    intro j _
    congr 1
    omega
  refine ⟨hill2, ?_⟩
  have htide : fig.cells.map (fun c => c.tideIndex) =
      (fig.cells.map (fun c => c.illIndex)).map (fun i => i + 7) := by
    rw [List.map_map]
    apply List.map_congr_left
    intro c hc
    exact (hmem c hc).1
  rw [htide, hill2, List.map_map]
  apply List.map_congr_left
  intro j _
  rfl

theorem gridFor_le (y m k : Nat) (hk : k ≤ 30) : gridFor y m k ≤ 76 := by
  have := init_day_lt y m
  simp only [gridFor]
  omega

theorem month_page_grid_nodup {y m : Nat} {t : TidesObj} {s mo : AstroObj}
    {logo : Except PyErr Unit} {fig : MonthFig} (hy : y ≤ 9999) (hm2 : m ≤ 12)
    (h : month_page y m t s mo logo = .ok fig) :
    (fig.cells.map (fun c => c.illIndex) ++
      fig.cells.map (fun c => c.tideIndex)).Nodup := by
  obtain ⟨hill, htide⟩ := month_page_grid hy hm2 h
  rw [hill, htide, List.nodup_append]
  have hinj : Function.Injective (fun k => gridFor y m k) := by
    intro a b hab
    simp only [gridFor] at hab
    omega
  have hinj7 : Function.Injective (fun k => gridFor y m k + 7) := by
    intro a b hab
    simp only [gridFor] at hab
    omega
  refine ⟨List.Nodup.map hinj (List.nodup_range _),
    List.Nodup.map hinj7 (List.nodup_range _), ?_⟩
  intro a ha hb
  obtain ⟨k1, -, hk1⟩ := List.mem_map.mp ha
  obtain ⟨k2, -, hk2⟩ := List.mem_map.mp hb
  rw [← hk1] at hk2
  simp only [gridFor] at hk2
  omega

theorem sample_month_page_ok :
    month_page 2015 7 sampleTide sampleSun sampleMoon (.ok ()) =
      .ok sampleFig := rfl

theorem month_page_get_ill {y m : Nat} {t : TidesObj} {s mo : AstroObj}
    {logo : Except PyErr Unit} {fig : MonthFig} (hy : y ≤ 9999) (hm2 : m ≤ 12)
    (h : month_page y m t s mo logo = .ok fig) (k : Nat)
    (hk : k < (fig.cells.map (fun c => c.illIndex)).length) :
    (fig.cells.map (fun c => c.illIndex)).get ⟨k, hk⟩ = gridFor y m k := by
  obtain ⟨hill, -⟩ := month_page_grid hy hm2 h
  rw [List.get_of_eq hill ⟨k, hk⟩, List.get_eq_getElem, List.getElem_map,
    List.getElem_range]

/-! ## Claim theorems -/

/-- C1: for every month, the grid cursor starts at `init_day` (the
Sunday = 0 weekday of the month's first day), advances by 1 after each
non-Saturday date and by 8 immediately after a Saturday (Monday = 0
`dayofweek` equal to 5); every tide cell sits 7 slots below its
illumination cell, and all illumination and tide cell indices of the
month are pairwise distinct — an illumination cell never collides with
a tide cell. -/
theorem claim_C1_grid_cursor (y m : Nat) (hy1 : 1000 ≤ y) (hy2 : y ≤ 9999)
    (hm1 : 1 ≤ m) (hm2 : m ≤ 12) (t : TidesObj) (s mo : AstroObj)
    (logo : Except PyErr Unit) (fig : MonthFig)
    (h : month_page y m t s mo logo = .ok fig) :
    (fig.cells.map (fun c => c.illIndex)).head? = some (init_day y m) ∧
    (∀ k (h1 : k + 1 < (fig.cells.map (fun c => c.illIndex)).length),
      (fig.cells.map (fun c => c.illIndex)).get ⟨k + 1, h1⟩ =
        (fig.cells.map (fun c => c.illIndex)).get ⟨k, by omega⟩ +
          (if dayofweek ⟨y, m, k + 1⟩ = 5 then 8 else 1)) ∧
    (∀ c ∈ fig.cells, c.tideIndex = c.illIndex + 7) ∧
    (fig.cells.map (fun c => c.illIndex) ++
      fig.cells.map (fun c => c.tideIndex)).Nodup := by
  obtain ⟨hp, -, -, -, -, -⟩ := month_page_parts h
  obtain ⟨-, -, hmem⟩ := plotDays_ok _ _ _ hp
  refine ⟨?_, ?_, fun c hc => (hmem c hc).1,
    month_page_grid_nodup hy2 hm2 h⟩
  · obtain ⟨hill, -⟩ := month_page_grid hy2 hm2 h
    rw [hill]
    have h28 := monthrange_ge y m
    obtain ⟨u, hu⟩ : ∃ u, monthrange y m = u + 1 :=
      ⟨monthrange y m - 1, by omega⟩
    rw [hu, List.range_succ_eq_map, List.map_cons, List.head?_cons,
      gridFor_zero]
  · intro k h1
    rw [month_page_get_ill hy2 hm2 h (k + 1) h1,
      month_page_get_ill hy2 hm2 h k (by omega),
      dayofweek_from_first, gridFor_step]

/-- C5: for every month, every grid index addressed for an illumination
cell or a tide cell — and for the leading blank cell pairs — stays
within the 12-row × 7-column gridspec, i.e. is at most 83. -/
theorem claim_C5_grid_bound (y m : Nat) (hy1 : 1000 ≤ y) (hy2 : y ≤ 9999)
    (hm1 : 1 ≤ m) (hm2 : m ≤ 12) (t : TidesObj) (s mo : AstroObj)
    (logo : Except PyErr Unit) (fig : MonthFig)
    (h : month_page y m t s mo logo = .ok fig) :
    (∀ c ∈ fig.cells, c.illIndex ≤ 83 ∧ c.tideIndex ≤ 83) ∧
    (∀ p ∈ fig.blankPairs, p.1 ≤ 83 ∧ p.2 ≤ 83) := by
  obtain ⟨hill, htide⟩ := month_page_grid hy2 hm2 h
  obtain ⟨-, -, hblank, -, -, -⟩ := month_page_parts h
  constructor
  · intro c hc
    have hin : c.illIndex ∈ fig.cells.map (fun c => c.illIndex) :=
      List.mem_map_of_mem _ hc
    rw [hill] at hin
    obtain ⟨k, hk, hke⟩ := List.mem_map.mp hin
    have hkn : k < monthrange y m := List.mem_range.mp hk
    have h31 := monthrange_le y m
    have hb : gridFor y m k ≤ 76 := gridFor_le y m k (by omega)
    obtain ⟨-, -, hmem⟩ := plotDays_ok _ _ _ (month_page_parts h).1
    have ht7 := (hmem c hc).1
    omega
  · intro p hp
    rw [hblank] at hp
    obtain ⟨i, hi, hie⟩ := List.mem_map.mp hp
    have : i < init_day y m := List.mem_range.mp hi
    have h7 := init_day_lt y m
    cases hie
    constructor <;> simp <;> omega

/-- C3: every day cell's tide vertical range is exactly the year's
global `(annual_min, annual_max)` from the tide context, identical for
every day of every month rendered from that context. -/
theorem claim_C3_tide_ylim (y m : Nat) (t : TidesObj) (s mo : AstroObj)
    (logo : Except PyErr Unit) (fig : MonthFig)
    (h : month_page y m t s mo logo = .ok fig) :
    (∀ c ∈ fig.cells, c.tideYlim = (t.annual_min, t.annual_max)) ∧
    (∀ (y2 m2 : Nat) (s2 mo2 : AstroObj) (logo2 : Except PyErr Unit)
      (fig2 : MonthFig), month_page y2 m2 t s2 mo2 logo2 = .ok fig2 →
      ∀ c ∈ fig.cells, ∀ c2 ∈ fig2.cells, c.tideYlim = c2.tideYlim) := by
  have key : ∀ (y2 m2 : Nat) (s2 mo2 : AstroObj) (logo2 : Except PyErr Unit)
      (fig2 : MonthFig), month_page y2 m2 t s2 mo2 logo2 = .ok fig2 →
      ∀ c ∈ fig2.cells, c.tideYlim = (t.annual_min, t.annual_max) := by
    intro y2 m2 s2 mo2 logo2 fig2 h2 c hc
    obtain ⟨hp, -, -, -, -, -⟩ := month_page_parts h2
    obtain ⟨-, -, hmem⟩ := plotDays_ok _ _ _ hp
    obtain ⟨g2, hc2⟩ := (hmem c hc).2
    exact (plot_a_date_ok hc2).2.2.2.2.2.2.1
  refine ⟨key y m s mo logo fig h, ?_⟩
  intro y2 m2 s2 mo2 logo2 fig2 h2 c hc c2 hc2
  rw [key y m s mo logo fig h c hc, key y2 m2 s2 mo2 logo2 fig2 h2 c2 hc2]

/-- C4: every day cell's horizontal range runs from 00:00 to 23:59 of
its date localized to the station's timezone; it is a function of the
date and the station timezone only, so it does not depend on the input
series or the timezone their timestamps carry. -/
theorem claim_C4_xlim (y m : Nat) (t : TidesObj) (s mo : AstroObj)
    (logo : Except PyErr Unit) (fig : MonthFig)
    (h : month_page y m t s mo logo = .ok fig) :
    (∀ c ∈ fig.cells,
      c.xlimLo = ⟨c.date ++ " 00:00", t.timezone⟩ ∧
      c.xlimHi = ⟨c.date ++ " 23:59", t.timezone⟩) ∧
    (∀ (t2 : TidesObj) (s2 mo2 : AstroObj) (logo2 : Except PyErr Unit)
      (fig2 : MonthFig), t2.timezone = t.timezone →
      month_page y m t2 s2 mo2 logo2 = .ok fig2 →
      ∀ c ∈ fig.cells, ∀ c2 ∈ fig2.cells, c.date = c2.date →
        c.xlimLo = c2.xlimLo ∧ c.xlimHi = c2.xlimHi) := by
  have key : ∀ (t2 : TidesObj) (s2 mo2 : AstroObj) (logo2 : Except PyErr Unit)
      (fig2 : MonthFig), month_page y m t2 s2 mo2 logo2 = .ok fig2 →
      ∀ c ∈ fig2.cells,
        c.xlimLo = ⟨c.date ++ " 00:00", t2.timezone⟩ ∧
        c.xlimHi = ⟨c.date ++ " 23:59", t2.timezone⟩ := by
    intro t2 s2 mo2 logo2 fig2 h2 c hc
    obtain ⟨hp, -, -, -, -, -⟩ := month_page_parts h2
    obtain ⟨-, -, hmem⟩ := plotDays_ok _ _ _ hp
    obtain ⟨g2, hc2⟩ := (hmem c hc).2
    obtain ⟨-, -, -, hxlo, hxhi, -⟩ := plot_a_date_ok hc2
    exact ⟨hxlo, hxhi⟩
  refine ⟨key t s mo logo fig h, ?_⟩
  intro t2 s2 mo2 logo2 fig2 htz h2 c hc c2 hc2 hdd
  obtain ⟨h1, h2'⟩ := key t s mo logo fig h c hc
  obtain ⟨h3, h4⟩ := key t2 s2 mo2 logo2 fig2 h2 c2 hc2
  constructor
  · rw [h1, h3, hdd, htz]
  · rw [h2', h4, hdd, htz]

/-- C8: the moon-phase glyph of every rendered date is obtained by
indexing the fixed 28-symbol table with the date's integer phase index;
position 0 holds the new-moon symbol, positions 1-13 and 15-27 hold
sequential letters, and the variant symbol at position 14 marks full
moon. -/
theorem claim_C8_moon_glyph (y m : Nat) (t : TidesObj) (s mo : AstroObj)
    (logo : Except PyErr Unit) (fig : MonthFig)
    (h : month_page y m t s mo logo = .ok fig) :
    (∀ c ∈ fig.cells, ∃ ph, mo.phase_day_num c.date = some ph ∧
      moon_icon.data.get? ph = some c.moonGlyph) ∧
    moon_icon.data.length = 28 ∧
    moon_icon.data.get? 0 = some '0' ∧
    moon_icon.data.get? 14 = some '@' ∧
    (∀ k, k < 28 → 1 ≤ k → k ≤ 13 →
      moon_icon.data.get? k = some (Char.ofNat (64 + k))) ∧
    (∀ k, k < 28 → 15 ≤ k →
      moon_icon.data.get? k = some (Char.ofNat (63 + k))) := by
  refine ⟨?_, by decide, by decide, by decide, by decide, by decide⟩
  intro c hc
  obtain ⟨hp, -, -, -, -, -⟩ := month_page_parts h
  obtain ⟨-, -, hmem⟩ := plotDays_ok _ _ _ hp
  obtain ⟨g2, hc2⟩ := (hmem c hc).2
  exact (plot_a_date_ok hc2).2.2.2.2.2.2.2.2.2.2.2

/-- C10: the numeric day-of-month annotation of a rendered date is the
day component of the first timestamp of that date's sun series, and it
equals the date's own day-of-month exactly when that first sample's day
component does. -/
theorem claim_C10_day_label (y m : Nat) (t : TidesObj) (s mo : AstroObj)
    (logo : Except PyErr Unit) (fig : MonthFig)
    (h : month_page y m t s mo logo = .ok fig) :
    ∀ c ∈ fig.cells, ∃ ser ts, s.heights c.date = some ser ∧
      ser.index.head? = some ts ∧ c.dayLabel = ts.day ∧
      ∃ d, 1 ≤ d ∧ d ≤ monthrange y m ∧ c.date = dateStr y m d ∧
        (c.dayLabel = d ↔ ts.day = d) := by
  intro c hc
  obtain ⟨hp, -, -, -, -, -⟩ := month_page_parts h
  obtain ⟨hdates, -, hmem⟩ := plotDays_ok _ _ _ hp
  obtain ⟨g2, hc2⟩ := (hmem c hc).2
  obtain ⟨-, -, -, -, -, -, -, hsun, -, -, ⟨ts, hh, hlab⟩, -⟩ :=
    plot_a_date_ok hc2
  refine ⟨c.sunSeries, ts, hsun, hh, hlab, ?_⟩
  have hin : c.date ∈ days_in_month y m := by
    rw [← hdates]
    exact List.mem_map_of_mem _ hc
  rw [days_in_month_eq] at hin
  obtain ⟨k, hk, he⟩ := List.mem_map.mp hin
  have hkn := List.mem_range.mp hk
  exact ⟨k + 1, by omega, by omega, he.symm, by rw [hlab]⟩

/-- C2: for every valid year-month, `days_in_month` yields exactly the
calendar-correct number of date strings (29/28 for February by leap
year, 30 for April, June, September, November, 31 otherwise), in
strictly ascending order, each formatted `YYYY-MM-DD` and lying within
the month. -/
theorem claim_C2_days_in_month (y m : Nat) (hy1 : 1000 ≤ y)
    (hy2 : y ≤ 9999) (hm1 : 1 ≤ m) (hm2 : m ≤ 12) :
    (days_in_month y m).length =
      (if m = 2 then (if leapYear y then 29 else 28)
       else if m = 4 ∨ m = 6 ∨ m = 9 ∨ m = 11 then 30 else 31) ∧
    List.Chain' (· < ·) (days_in_month y m) ∧
    (∀ s ∈ days_in_month y m, ∃ d, 1 ≤ d ∧ d ≤ monthrange y m ∧
      s = dateStr y m d ∧ parseDate s = some ⟨y, m, d⟩) := by
  have h31 := monthrange_le y m
  refine ⟨?_, days_in_month_chain y m, ?_⟩
  · rw [days_in_month_eq, List.length_map, List.length_range]
    rfl
  · intro s hs
    rw [days_in_month_eq] at hs
    obtain ⟨k, hk, he⟩ := List.mem_map.mp hs
    have hkn := List.mem_range.mp hk
    refine ⟨k + 1, by omega, by omega, he.symm, ?_⟩
    rw [← he]
    exact parseDate_dateStr y m (k + 1) hy2 (by omega) (by omega)

/-- C9: for every 4-digit year, `months_in_year` yields exactly the 12
`YYYY-MM` identifiers January through December in ascending order. -/
theorem claim_C9_months_in_year (y : Nat) (hy1 : 1000 ≤ y)
    (hy2 : y ≤ 9999) :
    months_in_year y = (List.range 12).map (fun k => monthStr y (k + 1)) ∧
    (months_in_year y).length = 12 ∧
    List.Chain' (· < ·) (months_in_year y) := by
  refine ⟨months_in_year_eq y, ?_, months_in_year_chain y⟩
  rw [months_in_year_eq, List.length_map, List.length_range]

/-- C7: if any of the three per-day lookups lacks an entry for a date of
the requested month (given that the data that is present is well-formed:
nonempty sun indices, phase indices below 28), composition of the
month's page aborts with a `KeyError` naming a missing date, for any
logo-load outcome — no fallback, no partial figure. -/
theorem claim_C7_missing_date (y m : Nat) (hy2 : y ≤ 9999) (hm2 : m ≤ 12)
    (t : TidesObj) (s mo : AstroObj)
    (wfS : ∀ day ∈ days_in_month y m, ∀ ser, s.heights day = some ser →
      ser.index.head? ≠ none)
    (wfPh : ∀ day ∈ days_in_month y m, ∀ ph, mo.phase_day_num day = some ph →
      ph < 28)
    (hex : ∃ day ∈ days_in_month y m, lookupMissing t s mo day) :
    ∃ day ∈ days_in_month y m, lookupMissing t s mo day ∧
      ∀ logo, month_page y m t s mo logo = .error (.keyError day) := by
  have h31 := monthrange_le y m
  have hP : ∀ day ∈ days_in_month y m, parseDate day ≠ none := by
    intro day hd
    rw [days_in_month_eq] at hd
    obtain ⟨k, hk, he⟩ := List.mem_map.mp hd
    have hkn := List.mem_range.mp hk
    rw [← he, parseDate_dateStr y m (k + 1) hy2 (by omega) (by omega)]
    exact fun hc => Option.noConfusion hc
  obtain ⟨day, h1, h2, herr⟩ :=
    plotDays_abort (days_in_month y m) (init_day y m) wfS wfPh hP hex
  exact ⟨day, h1, h2, fun logo => month_page_loop_err herr logo⟩

/-- The `except` handler of the logo `try` block evaluates
`'Could not load logo image. Error: ' + e` with `e` an exception object,
which itself raises `TypeError`; the handler therefore re-raises instead
of reporting and continuing. -/
theorem logoSection_error (e : PyErr) :
    logoSection (.error e) =
      .error (.typeError "can only concatenate str to str") := rfl

/-- C6 (refuted by the code): when the logo load fails, `month_page`
does not return the composed page — the diagnostic line
`print('Could not load logo image. Error: ' + e)` in the handler raises
`TypeError` (str + Exception), which propagates out of `month_page`. -/
theorem claim_C6_logo_failure_crashes :
    month_page 2015 7 sampleTide sampleSun sampleMoon
        (.error (.typeError "cannot identify image file")) =
      .error (.typeError "can only concatenate str to str") := rfl

/-! ## Witnesses: concrete instantiations of the claim theorems -/

theorem claim_C1_witness :
    (sampleFig.cells.map (fun c => c.illIndex)).head? =
      some (init_day 2015 7) ∧
    (∀ k (h1 : k + 1 < (sampleFig.cells.map (fun c => c.illIndex)).length),
      (sampleFig.cells.map (fun c => c.illIndex)).get ⟨k + 1, h1⟩ =
        (sampleFig.cells.map (fun c => c.illIndex)).get ⟨k, by omega⟩ +
          (if dayofweek ⟨2015, 7, k + 1⟩ = 5 then 8 else 1)) ∧
    (∀ c ∈ sampleFig.cells, c.tideIndex = c.illIndex + 7) ∧
    (sampleFig.cells.map (fun c => c.illIndex) ++
      sampleFig.cells.map (fun c => c.tideIndex)).Nodup :=
  claim_C1_grid_cursor 2015 7 (by norm_num) (by norm_num) (by norm_num)
    (by norm_num) sampleTide sampleSun sampleMoon (.ok ()) sampleFig
    sample_month_page_ok

theorem claim_C2_witness :
    (days_in_month 2016 2).length =
      (if 2 = 2 then (if leapYear 2016 then 29 else 28)
       else if 2 = 4 ∨ 2 = 6 ∨ 2 = 9 ∨ 2 = 11 then 30 else 31) ∧
    List.Chain' (· < ·) (days_in_month 2016 2) ∧
    (∀ s ∈ days_in_month 2016 2, ∃ d, 1 ≤ d ∧ d ≤ monthrange 2016 2 ∧
      s = dateStr 2016 2 d ∧ parseDate s = some ⟨2016, 2, d⟩) :=
  claim_C2_days_in_month 2016 2 (by norm_num) (by norm_num) (by norm_num)
    (by norm_num)

theorem claim_C3_witness :
    (∀ c ∈ sampleFig.cells,
      c.tideYlim = (sampleTide.annual_min, sampleTide.annual_max)) ∧
    (∀ (y2 m2 : Nat) (s2 mo2 : AstroObj) (logo2 : Except PyErr Unit)
      (fig2 : MonthFig),
      month_page y2 m2 sampleTide s2 mo2 logo2 = .ok fig2 →
      ∀ c ∈ sampleFig.cells, ∀ c2 ∈ fig2.cells,
        c.tideYlim = c2.tideYlim) :=
  claim_C3_tide_ylim 2015 7 sampleTide sampleSun sampleMoon (.ok ())
    sampleFig sample_month_page_ok

theorem claim_C4_witness :
    (∀ c ∈ sampleFig.cells,
      c.xlimLo = ⟨c.date ++ " 00:00", sampleTide.timezone⟩ ∧
      c.xlimHi = ⟨c.date ++ " 23:59", sampleTide.timezone⟩) ∧
    (∀ (t2 : TidesObj) (s2 mo2 : AstroObj) (logo2 : Except PyErr Unit)
      (fig2 : MonthFig), t2.timezone = sampleTide.timezone →
      month_page 2015 7 t2 s2 mo2 logo2 = .ok fig2 →
      ∀ c ∈ sampleFig.cells, ∀ c2 ∈ fig2.cells, c.date = c2.date →
        c.xlimLo = c2.xlimLo ∧ c.xlimHi = c2.xlimHi) :=
  claim_C4_xlim 2015 7 sampleTide sampleSun sampleMoon (.ok ()) sampleFig
    sample_month_page_ok

theorem claim_C5_witness :
    (∀ c ∈ sampleFig.cells, c.illIndex ≤ 83 ∧ c.tideIndex ≤ 83) ∧
    (∀ p ∈ sampleFig.blankPairs, p.1 ≤ 83 ∧ p.2 ≤ 83) :=
  claim_C5_grid_bound 2015 7 (by norm_num) (by norm_num) (by norm_num)
    (by norm_num) sampleTide sampleSun sampleMoon (.ok ()) sampleFig
    sample_month_page_ok

theorem claim_C7_witness :
    ∃ day ∈ days_in_month 2015 7,
      lookupMissing sampleTideMissing sampleSun sampleMoon day ∧
      ∀ logo, month_page 2015 7 sampleTideMissing sampleSun sampleMoon logo =
        .error (.keyError day) :=
  claim_C7_missing_date 2015 7 (by norm_num) (by norm_num)
    sampleTideMissing sampleSun sampleMoon
    (by intro day _ ser hser; cases hser; decide)
    (by intro day _ ph hph; cases hph; decide)
    ⟨"2015-07-18", by decide, Or.inr (Or.inr (Or.inl rfl))⟩

theorem claim_C8_witness :
    (∀ c ∈ sampleFig.cells, ∃ ph, sampleMoon.phase_day_num c.date = some ph ∧
      moon_icon.data.get? ph = some c.moonGlyph) ∧
    moon_icon.data.length = 28 ∧
    moon_icon.data.get? 0 = some '0' ∧
    moon_icon.data.get? 14 = some '@' ∧
    (∀ k, k < 28 → 1 ≤ k → k ≤ 13 →
      moon_icon.data.get? k = some (Char.ofNat (64 + k))) ∧
    (∀ k, k < 28 → 15 ≤ k →
      moon_icon.data.get? k = some (Char.ofNat (63 + k))) :=
  claim_C8_moon_glyph 2015 7 sampleTide sampleSun sampleMoon (.ok ())
    sampleFig sample_month_page_ok

theorem claim_C9_witness :
    months_in_year 2015 =
      ["2015-01", "2015-02", "2015-03", "2015-04", "2015-05", "2015-06",
       "2015-07", "2015-08", "2015-09", "2015-10", "2015-11", "2015-12"] ∧
    (months_in_year 2015).length = 12 ∧
    List.Chain' (· < ·) (months_in_year 2015) := by
  have h := claim_C9_months_in_year 2015 (by norm_num) (by norm_num)
  exact ⟨by rw [h.1]; rfl, h.2.1, h.2.2⟩

theorem claim_C10_witness :
    ∃ c, c ∈ sampleFig.cells ∧ ∃ ser ts,
      sampleSun.heights c.date = some ser ∧
      ser.index.head? = some ts ∧ c.dayLabel = ts.day ∧
      ∃ d, 1 ≤ d ∧ d ≤ monthrange 2015 7 ∧ c.date = dateStr 2015 7 d ∧
        (c.dayLabel = d ↔ ts.day = d) := by
  obtain ⟨c, hc⟩ := List.exists_mem_of_ne_nil sampleFig.cells (by decide)
  exact ⟨c, hc, claim_C10_day_label 2015 7 sampleTide sampleSun sampleMoon
    (.ok ()) sampleFig sample_month_page_ok c hc⟩

end Cal
